import Mathlib

/-!
Shallow embedding of `src/main.py` of the `expense_tracker_mcp` repository:
a MongoDB-backed expense tracker with session-based authentication.

Modelling conventions, fixed once here:

* The MongoDB store is a pair of lists, `users` and `expenses`, kept in
  insertion order (MongoDB's natural order for unindexed scans).  Store-assigned
  ids (`_id` / `ObjectId`) are modelled by `Nat` counters `next_user_id` /
  `next_expense_id` in the `DB` state.
* `datetime.now()` is an explicit `now : Nat` argument (time in hours, so that
  `timedelta(hours=SESSION_TIMEOUT_HOURS)` is `+ SESSION_TIMEOUT_HOURS`);
  `datetime.now().strftime("%Y-%m-%d")` in `add_expense` is an explicit
  `today : String` argument.
* `hash_password` (SHA-256 hex digest) is an opaque pure function, passed as a
  `hashPassword : String → String` argument; `generate_session_token`
  (`secrets.token_urlsafe`) is nondeterministic and is passed as the
  `newToken : String` argument to `login_user`.
* Python `float` amounts are modelled as `Int`: the operations only store,
  copy and compare amounts, never do arithmetic that distinguishes the two
  (the `:.2f` display formatting is modelled as plain `toString`).
* `find_one(q)` is `List.find?` (first match in natural order); `update_one`
  updates the first match (`updateFirst`); `update_many` / `delete_many` map /
  filter over all matches.  Following pymongo, `modified_count` of an
  `update_many` counts only documents whose stored value actually changed
  (a `$set` to the already-stored value is matched but not modified), while
  `deleted_count` counts every match.
* A `PyMongoError` raised by the store during the token lookup of
  `get_user_from_token` is modelled by its `storageFault : Bool` argument
  (the function catches the error and returns `None`, line 292-293 of
  `main.py`); a fault in the insert of `add_expense` is modelled by its
  `insertFault : Option String` argument (the caught error's message).
* `$regex` search with `$options: "i"` is modelled as case-insensitive
  substring containment; `$gte`/`$lte` on the `"YYYY-MM-DD"` date strings is
  lexicographic string comparison, as in MongoDB's binary string ordering.
-/

namespace ExpenseTracker

/-- Lexicographic `≤` on char lists, mirroring byte-wise string comparison. -/
def charsLe : List Char → List Char → Bool
  | [], _ => true
  | _ :: _, [] => false
  | a :: as, b :: bs => if a < b then true else if b < a then false else charsLe as bs

/-- Lexicographic `≤` on strings (MongoDB's ordering on the date strings). -/
def strLe (a b : String) : Bool := charsLe a.data b.data

/-- Is `needle` a contiguous sublist of `hay`? -/
def charsInfix (needle : List Char) : List Char → Bool
  | [] => needle.isEmpty
  | c :: rest => needle.isPrefixOf (c :: rest) || charsInfix needle rest

/-- Case-insensitive substring containment: the model of a
`{"$regex": term, "$options": "i"}` condition (regex metacharacters are not
modelled; the claims only depend on the ownership conjunct of the query). -/
def strContainsCI (hay needle : String) : Bool :=
  charsInfix (needle.data.map Char.toLower) (hay.data.map Char.toLower)

/-- Python truthiness of an optional string (`if category:`): `None` and the
empty string are falsy. -/
def pyTruthy : Option String → Bool
  | none => false
  | some s => !(s == "")

/-- `update_one`: apply `f` to the first element satisfying `p`. -/
def updateFirst {α : Type} (p : α → Bool) (f : α → α) : List α → List α
  | [] => []
  | x :: xs => if p x then f x :: xs else x :: updateFirst p f xs

/-- `"c" * n` of the Python report formatting. -/
def repChar (c : Char) (n : Nat) : String := String.mk (List.replicate n c)

/-- A document of the `users` collection (`user_doc`, main.py line 126-133;
`last_login` is absent until the first login sets it). -/
structure User where
  id : Nat
  username : String
  email : String
  password_hash : String
  created_at : Nat
  session_token : Option String
  session_expires_at : Option Nat
  last_login : Option Nat
deriving Repr, DecidableEq

/-- A document of the `expenses` collection (`expense_doc`, main.py
line 381-388). -/
structure Expense where
  id : Nat
  user_id : Nat
  description : String
  amount : Int
  category : String
  date : String
  created_at : Nat
deriving Repr, DecidableEq

/-- The persistent MongoDB state. -/
structure DB where
  users : List User
  expenses : List Expense
  next_user_id : Nat
  next_expense_id : Nat
deriving Repr, DecidableEq

/-- `SESSION_TIMEOUT_HOURS` (env default `"24"`, main.py line 26). -/
def SESSION_TIMEOUT_HOURS : Nat := 24

/-- `register_user(username, email, password)`, main.py line 101-138:
checks the username, then the email, then inserts the new user document with
null session fields. -/
def register_user (db : DB) (now : Nat) (hashPassword : String → String)
    (username email password : String) : String × DB :=
  if (db.users.find? (fun u => u.username == username)).isSome then
    (s!"❌ Username '{username}' already exists", db)
  else if (db.users.find? (fun u => u.email == email)).isSome then
    (s!"❌ Email '{email}' already registered", db)
  else
    let uid := db.next_user_id
    let user : User :=
      { id := uid, username := username, email := email,
        password_hash := hashPassword password, created_at := now,
        session_token := none, session_expires_at := none, last_login := none }
    (s!"✓ User registered successfully! User ID: {uid}",
      { db with users := db.users ++ [user], next_user_id := uid + 1 })

/-- `login_user(username, password)`, main.py line 141-188: looks the user up
by username or email, verifies the password hash, then stores a fresh token,
its expiry `now + SESSION_TIMEOUT_HOURS` and `last_login` on the user.  Both
failure paths return the same generic message. -/
def login_user (db : DB) (now : Nat) (hashPassword : String → String)
    (newToken : String) (username password : String) : String × DB :=
  match db.users.find? (fun u => u.username == username || u.email == username) with
  | none => ("❌ Invalid username or password", db)
  | some user =>
    if user.password_hash != hashPassword password then
      ("❌ Invalid username or password", db)
    else
      let expires_at := now + SESSION_TIMEOUT_HOURS
      let uid := user.id
      let newUsers :=
        updateFirst (fun u => u.id == user.id)
          (fun u => { u with session_token := some newToken,
                             session_expires_at := some expires_at,
                             last_login := some now }) db.users
      (s!"✓ Login successful!\nUser ID: {uid}\nSession Token: {newToken}\nExpires: {expires_at}\n\n⚠️ Save this session token - you'll need it for all expense operations!\n💡 Session valid for {SESSION_TIMEOUT_HOURS} hours",
        { db with users := newUsers })

/-- `get_user_from_token(session_token)`, main.py line 261-293: finds the
holder of the token; if an expiry is set and passed, clears the session fields
on that user (lazy revocation) and returns `None`; a token with no stored
expiry is treated as valid.  Both the unknown-token and the expired-token case
return `None`, and a `PyMongoError` during the lookup (`storageFault`) is
caught and also returns `None`. -/
def get_user_from_token (db : DB) (now : Nat) (session_token : String)
    (storageFault : Bool) : Option User × DB :=
  if storageFault then (none, db)
  else
    match db.users.find? (fun u => u.session_token == some session_token) with
    | none => (none, db)
    | some user =>
      match user.session_expires_at with
      | some expires_at =>
        if expires_at < now then
          let newUsers :=
            updateFirst (fun u => u.id == user.id)
              (fun u => { u with session_token := none, session_expires_at := none })
              db.users
          (none, { db with users := newUsers })
        else (some user, db)
      | none => (some user, db)

/-- The uniform rejection message of every data operation when
`get_user_from_token` returns `None`. -/
def invalidSessionMsg : String := "❌ Invalid session token. Please login first."

/-- `add_expense(session_token, description, amount, category)`, main.py
line 358-393: the inserted document's `user_id` is the resolved user's id,
never caller-supplied.  `insertFault` models a `PyMongoError` raised by the
insert and caught at line 392. -/
def add_expense (db : DB) (now : Nat) (today : String) (session_token : String)
    (description : String) (amount : Int) (category : String)
    (storageFault : Bool) (insertFault : Option String) : String × DB :=
  match get_user_from_token db now session_token storageFault with
  | (none, db1) => (invalidSessionMsg, db1)
  | (some user, db1) =>
    match insertFault with
    | some m => (s!"❌ Error adding expense: {m}", db1)
    | none =>
      let eid := db1.next_expense_id
      let doc : Expense :=
        { id := eid, user_id := user.id, description := description,
          amount := amount, category := category, date := today, created_at := now }
      (s!"✓ Expense added successfully with ID: {eid}",
        { db1 with expenses := db1.expenses ++ [doc], next_expense_id := eid + 1 })

/-- The filter of `list_all_expense`: `{"user_id": user["_id"]}`. -/
def list_all_matches (uid : Nat) (e : Expense) : Bool := e.user_id == uid

/-- The filter of `search_expense`: owner id conjoined with a case-insensitive
regex match on description or category. -/
def search_matches (uid : Nat) (search_term : String) (e : Expense) : Bool :=
  e.user_id == uid &&
    (strContainsCI e.description search_term || strContainsCI e.category search_term)

/-- The filter built identically by `get_expense_details_by_date_and_category`
and `get_expense_summary_by_date_and_category`: owner id, inclusive date
range, and the category only when `category` is truthy. -/
def range_matches (uid : Nat) (start_date end_date : String)
    (category : Option String) (e : Expense) : Bool :=
  e.user_id == uid && strLe start_date e.date && strLe e.date end_date &&
    (if pyTruthy category then e.category == category.getD "" else true)

/-- The filter of `get_expense_details`:
`{"_id": ObjectId(expense_id), "user_id": user["_id"]}`. -/
def details_matches (uid : Nat) (expense_id : Nat) (e : Expense) : Bool :=
  e.id == expense_id && e.user_id == uid

/-- Insertion step of `sortable` below. -/
def insertLeBy {α : Type} (le : α → α → Bool) (x : α) : List α → List α
  | [] => [x]
  | y :: ys => if le x y then x :: y :: ys else y :: insertLeBy le x ys

/-- Stable insertion sort: the model of a Mongo `.sort(...)` cursor. -/
def sortBy {α : Type} (le : α → α → Bool) : List α → List α
  | [] => []
  | x :: xs => insertLeBy le x (sortBy le xs)

/-- `.sort("_id", 1)`. -/
def byId (a b : Expense) : Bool := Nat.ble a.id b.id

/-- `.sort([("date", 1), ("_id", 1)])`. -/
def byDateId (a b : Expense) : Bool :=
  if a.date == b.date then Nat.ble a.id b.id else strLe a.date b.date

/-- `.sort([("category", 1), ("date", 1)])`. -/
def byCategoryDate (a b : Expense) : Bool :=
  if a.category == b.category then strLe a.date b.date else strLe a.category b.category

/-- One formatted block of `list_all_expense` / `search_expense` output. -/
def expenseBlock (e : Expense) : String :=
  let eid := e.id
  let desc := e.description
  let amt := toString e.amount
  let cat := e.category
  let d := e.date
  s!"ID: {eid}\n  Description: {desc}\n  Amount: ${amt}\n  Category: {cat}\n  Date: {d}\n"
    ++ repChar '-' 60 ++ "\n"

/-- `list_all_expense(session_token)`, main.py line 396-431. -/
def list_all_expense (db : DB) (now : Nat) (session_token : String)
    (storageFault : Bool) : String × DB :=
  match get_user_from_token db now session_token storageFault with
  | (none, db1) => (invalidSessionMsg, db1)
  | (some user, db1) =>
    let expenses := sortBy byId (db1.expenses.filter (list_all_matches user.id))
    if expenses.isEmpty then ("No expenses found for your account", db1)
    else
      let uname := user.username
      (s!"📋 Your Expenses (User: {uname}):\n" ++ repChar '=' 60 ++ "\n"
        ++ String.join (expenses.map expenseBlock), db1)

/-- `search_expense(session_token, search_term)`, main.py line 434-479. -/
def search_expense (db : DB) (now : Nat) (session_token search_term : String)
    (storageFault : Bool) : String × DB :=
  match get_user_from_token db now session_token storageFault with
  | (none, db1) => (invalidSessionMsg, db1)
  | (some user, db1) =>
    let expenses := sortBy byId (db1.expenses.filter (search_matches user.id search_term))
    if expenses.isEmpty then (s!"No expenses found matching '{search_term}'", db1)
    else
      let uname := user.username
      (s!"🔍 Search results for '{search_term}' (User: {uname}):\n" ++ repChar '=' 60 ++ "\n"
        ++ String.join (expenses.map expenseBlock), db1)

/-- One formatted block of `get_expense_details_by_date_and_category` output
(date first). -/
def expenseDateBlock (e : Expense) : String :=
  let eid := e.id
  let d := e.date
  let desc := e.description
  let cat := e.category
  let amt := toString e.amount
  s!"ID: {eid}\n  Date: {d}\n  Description: {desc}\n  Category: {cat}\n  Amount: ${amt}\n"
    ++ repChar '-' 60 ++ "\n"

/-- The no-match message shared by the two date-range operations. -/
def rangeEmptyMsg (start_date end_date : String) (category : Option String) : String :=
  if pyTruthy category then
    let c := category.getD ""
    s!"No expenses found in category '{c}' between {start_date} and {end_date}"
  else
    s!"No expenses found between {start_date} and {end_date}"

/-- `get_expense_details_by_date_and_category(session_token, start_date,
end_date, category)`, main.py line 482-537. -/
def get_expense_details_by_date_and_category (db : DB) (now : Nat)
    (session_token start_date end_date : String) (category : Option String)
    (storageFault : Bool) : String × DB :=
  match get_user_from_token db now session_token storageFault with
  | (none, db1) => (invalidSessionMsg, db1)
  | (some user, db1) =>
    let expenses :=
      sortBy byDateId (db1.expenses.filter (range_matches user.id start_date end_date category))
    if expenses.isEmpty then (rangeEmptyMsg start_date end_date category, db1)
    else
      let header :=
        if pyTruthy category then
          let c := category.getD ""
          s!"📋 Expenses in '{c}' ({start_date} to {end_date}):\n"
        else
          s!"📋 All Expenses ({start_date} to {end_date}):\n"
      (header ++ repChar '=' 60 ++ "\n" ++ String.join (expenses.map expenseDateBlock), db1)

/-- The per-category grouping of the summary operation: a Python dict in
insertion order, each category with its expenses in iteration order. -/
def groupInsert (e : Expense) : List (String × List Expense) → List (String × List Expense)
  | [] => [(e.category, [e])]
  | (c, es) :: rest =>
    if c == e.category then (c, es ++ [e]) :: rest else (c, es) :: groupInsert e rest

/-- `grouped_expenses` of `get_expense_summary_by_date_and_category` (every
document inserted by `add_expense` carries a `category` key, so the
`.get('category', 'Uncategorized')` default never fires in this model). -/
def groupByCategory (rows : List Expense) : List (String × List Expense) :=
  rows.foldl (fun acc e => groupInsert e acc) []

/-- One per-category block of the summary output. -/
def summaryBlock (c : String) (es : List Expense) : String :=
  let total := toString (es.foldl (fun a e => a + e.amount) 0)
  s!"📁 Category: {c}\n   Total: ${total}\n" ++ repChar '-' 70 ++ "\n"
    ++ String.join (es.map fun e =>
        let d := e.date
        let desc := e.description
        let amt := toString e.amount
        s!"   • {d} | {desc}: ${amt}\n")
    ++ "\n"

/-- `get_expense_summary_by_date_and_category(session_token, start_date,
end_date, category)`, main.py line 540-623. -/
def get_expense_summary_by_date_and_category (db : DB) (now : Nat)
    (session_token start_date end_date : String) (category : Option String)
    (storageFault : Bool) : String × DB :=
  match get_user_from_token db now session_token storageFault with
  | (none, db1) => (invalidSessionMsg, db1)
  | (some user, db1) =>
    let expenses :=
      sortBy byCategoryDate
        (db1.expenses.filter (range_matches user.id start_date end_date category))
    if expenses.isEmpty then (rangeEmptyMsg start_date end_date category, db1)
    else
      let grouped := sortBy (fun a b => strLe a.1 b.1) (groupByCategory expenses)
      let grandTotal := toString (expenses.foldl (fun a e => a + e.amount) 0)
      let ncats := grouped.length
      let nexp := expenses.length
      (s!"📊 Expense Summary ({start_date} to {end_date})\n" ++ repChar '=' 70 ++ "\n\n"
        ++ String.join (grouped.map fun g => summaryBlock g.1 g.2)
        ++ repChar '=' 70 ++ "\n"
        ++ s!"💰 GRAND TOTAL: ${grandTotal}\n📈 Categories: {ncats}\n📝 Total Expenses: {nexp}\n",
       db1)

/-- `get_expense_details(session_token, expense_id)`, main.py line 626-660
(the `ObjectId` argument is modelled as the `Nat` expense id). -/
def get_expense_details (db : DB) (now : Nat) (session_token : String)
    (expense_id : Nat) (storageFault : Bool) : String × DB :=
  match get_user_from_token db now session_token storageFault with
  | (none, db1) => (invalidSessionMsg, db1)
  | (some user, db1) =>
    match db1.expenses.find? (details_matches user.id expense_id) with
    | some e =>
      let eid := e.id
      let desc := e.description
      let amt := toString e.amount
      let cat := e.category
      let d := e.date
      let cr := e.created_at
      (s!"📄 Expense Details (ID: {eid}):\n" ++ repChar '=' 60 ++ "\n"
        ++ s!"Description: {desc}\nAmount: ${amt}\nCategory: {cat}\nDate: {d}\nCreated: {cr}\n",
       db1)
    | none =>
      (s!"❌ Expense with ID {expense_id} not found or doesn't belong to you", db1)

/-- `delete_expense(session_token, description)`, main.py line 663-691:
`delete_many` on the owner id and the exact description. -/
def delete_expense (db : DB) (now : Nat) (session_token description : String)
    (storageFault : Bool) : String × DB :=
  match get_user_from_token db now session_token storageFault with
  | (none, db1) => (invalidSessionMsg, db1)
  | (some user, db1) =>
    let p := fun (e : Expense) => e.user_id == user.id && e.description == description
    let deletedCount := (db1.expenses.filter p).length
    let db2 := { db1 with expenses := db1.expenses.filter (fun e => !(p e)) }
    if deletedCount > 0 then
      (s!"✓ Deleted {deletedCount} expense(s) successfully", db2)
    else
      (s!"❌ No expenses found with description '{description}'", db2)

/-- `modify_expense(session_token, description, amount)`, main.py
line 694-726: `update_many` setting the amount on the owner id and the exact
description; `modified_count` counts only documents whose amount changed. -/
def modify_expense (db : DB) (now : Nat) (session_token description : String)
    (amount : Int) (storageFault : Bool) : String × DB :=
  match get_user_from_token db now session_token storageFault with
  | (none, db1) => (invalidSessionMsg, db1)
  | (some user, db1) =>
    let p := fun (e : Expense) => e.user_id == user.id && e.description == description
    let modifiedCount := (db1.expenses.filter (fun e => p e && e.amount != amount)).length
    let newExpenses := db1.expenses.map (fun e => if p e then { e with amount := amount } else e)
    let db2 := { db1 with expenses := newExpenses }
    if modifiedCount > 0 then
      (s!"✓ Modified {modifiedCount} expense(s) successfully", db2)
    else
      (s!"❌ No expenses found with description '{description}'", db2)

end ExpenseTracker

namespace ExpenseTracker

theorem map_if_of_no_match {α : Type} (p : α → Bool) (f : α → α) (l : List α)
    (h : ∀ x ∈ l, p x = false) :
    l.map (fun x => if p x then f x else x) = l := by
  induction l with
  | nil => rfl
  | cons x xs ih =>
    simp [h x (by simp), ih (fun y hy => h y (by simp [hy]))]

theorem updateFirst_eq_map_of_unique (f : User → User) (l : List User) (u : User)
    (hl : l.Pairwise (fun a b => a.id ≠ b.id)) (hu : u ∈ l) :
    updateFirst (fun x => x.id == u.id) f l
      = l.map (fun x => if x.id == u.id then f x else x) := by
  induction l with
  | nil => cases hu
  | cons x xs ih =>
    rcases List.pairwise_cons.mp hl with ⟨hx, hxs⟩
    by_cases hxid : x.id = u.id
    · have hnm : ∀ y ∈ xs, ((fun (z : User) => z.id == u.id) y) = false := by
        intro y hy
        have hne : x.id ≠ y.id := hx y hy
        simp only [beq_eq_false_iff_ne, ne_eq]
        intro hyu
        exact hne (by rw [hyu, hxid])
      have hpx : (x.id == u.id) = true := by simp [hxid]
      rw [updateFirst, if_pos hpx, List.map_cons, if_pos hpx,
        map_if_of_no_match _ f xs hnm]
    · have hu' : u ∈ xs := by
        cases hu with
        | head => exact absurd rfl hxid
        | tail _ h => exact h
      have hpx : ¬ ((x.id == u.id) = true) := by simp [hxid]
      rw [updateFirst, if_neg hpx, List.map_cons, if_neg hpx, ih hxs hu']

theorem find?_map_pres {α : Type} (p : α → Bool) (f : α → α) (l : List α)
    (h : ∀ x, p (f x) = p x) :
    (l.map f).find? p = (l.find? p).map f := by
  induction l with
  | nil => rfl
  | cons x xs ih =>
    simp only [List.map_cons, List.find?_cons, h x]
    cases hp : p x <;> simp [ih]

theorem pairwise_ids_map (f : User → User) (hf : ∀ x, (f x).id = x.id) (l : List User)
    (hl : l.Pairwise (fun a b => a.id ≠ b.id)) :
    (l.map f).Pairwise (fun a b => a.id ≠ b.id) :=
  List.Pairwise.map f (fun a b hab => by simpa [hf] using hab) hl

theorem get_user_from_token_eq_pair {db : DB} {now : Nat} {tok : String} {A : User}
    (h : (get_user_from_token db now tok false).1 = some A) :
    get_user_from_token db now tok false = (some A, db) := by
  unfold get_user_from_token at h ⊢
  simp only [Bool.false_eq_true, if_false] at h ⊢
  cases hfind : db.users.find? (fun u => u.session_token == some tok) with
  | none => simp_all
  | some user =>
    cases hexp : user.session_expires_at with
    | none => simp_all
    | some t =>
      by_cases hlt : t < now
      · simp_all
      · simp_all

end ExpenseTracker

namespace ExpenseTracker

/-- A computable stand-in for the SHA-256 digest, used only to build the
concrete witness states (the theorems hold for every digest function). -/
def demoHash (s : String) : String := s ++ "#"

/-- Witness fixture: a user with a live session (`tokA`, expires at 30). -/
def demoAlice : User := ⟨1, "alice", "a@x.com", "pw1#", 0, some "tokA", some 30, some 2⟩

/-- Witness fixture: a second user with a live session. -/
def demoBob : User := ⟨2, "bob", "b@x.com", "pw2#", 0, some "tokB", some 30, some 2⟩

/-- Witness fixture: a user whose session expired at 4. -/
def demoCarol : User := ⟨3, "carol", "c@x.com", "pw3#", 0, some "tokC", some 4, some 2⟩

/-- Witness fixture: a legacy user holding a token with no stored expiry. -/
def demoDave : User := ⟨4, "dave", "d@x.com", "pw4#", 0, some "tokD", none, some 2⟩

/-- Witness fixture: an expense owned by `demoAlice`. -/
def demoCoffee : Expense := ⟨10, 1, "coffee", 5, "Food", "2024-01-02", 2⟩

/-- Witness fixture: an expense owned by `demoBob`. -/
def demoTea : Expense := ⟨11, 2, "tea", 3, "Food", "2024-01-03", 2⟩

/-- Witness fixture: the store holding the four users and two expenses. -/
def demoDB : DB := ⟨[demoAlice, demoBob, demoCarol, demoDave], [demoCoffee, demoTea], 5, 12⟩

/-- **C4**: a user record holding a token whose `session_expires_at` is absent
is treated by `get_user_from_token` as valid and non-expiring: the owning user
is returned, no expiry comparison happens (the result does not depend on
`now`), and nothing is purged (the store is unchanged). -/
theorem legacy_token_valid_non_expiring
    (db : DB) (now : Nat) (tok : String) (u : User)
    (hfind : db.users.find? (fun x => x.session_token == some tok) = some u)
    (hleg : u.session_expires_at = none) :
    get_user_from_token db now tok false = (some u, db) := by
  unfold get_user_from_token
  simp only [Bool.false_eq_true, if_false, hfind, hleg]

theorem legacy_token_valid_non_expiring_witness :
    (demoDB.users.find? (fun x => x.session_token == some "tokD") = some demoDave ∧
      demoDave.session_expires_at = none) ∧
    get_user_from_token demoDB 1000000 "tokD" false = (some demoDave, demoDB) :=
  ⟨⟨by decide, by decide⟩,
    legacy_token_valid_non_expiring demoDB 1000000 "tokD" demoDave (by decide) (by decide)⟩

/-- **C6**: a login that fails because no user matches the identifier and a
login that fails because the stored hash mismatches produce exactly the same
outcome — the same generic message and an unchanged store — independently of
the time and of the freshly generated token. -/
theorem login_auth_failure_uniform
    (db : DB) (now1 now2 : Nat) (hashPassword : String → String)
    (tok1 tok2 id1 pw1 id2 pw2 : String) (u : User)
    (h1 : db.users.find? (fun x => x.username == id1 || x.email == id1) = none)
    (h2 : db.users.find? (fun x => x.username == id2 || x.email == id2) = some u)
    (h3 : u.password_hash ≠ hashPassword pw2) :
    login_user db now1 hashPassword tok1 id1 pw1 = ("❌ Invalid username or password", db) ∧
    login_user db now2 hashPassword tok2 id2 pw2 = login_user db now1 hashPassword tok1 id1 pw1 := by
  have hfst : login_user db now1 hashPassword tok1 id1 pw1
      = ("❌ Invalid username or password", db) := by
    unfold login_user
    rw [h1]
  refine ⟨hfst, ?_⟩
  rw [hfst]
  unfold login_user
  simp only [h2]
  rw [if_pos (bne_iff_ne.mpr h3)]

theorem login_auth_failure_uniform_witness :
    (demoDB.users.find? (fun x => x.username == "ghost" || x.email == "ghost") = none ∧
      demoDB.users.find? (fun x => x.username == "alice" || x.email == "alice") = some demoAlice ∧
      demoAlice.password_hash ≠ demoHash "wrongpw") ∧
    (login_user demoDB 3 demoHash "t1" "ghost" "pw" = ("❌ Invalid username or password", demoDB) ∧
      login_user demoDB 4 demoHash "t2" "alice" "wrongpw"
        = login_user demoDB 3 demoHash "t1" "ghost" "pw") :=
  ⟨⟨by decide, by decide, by decide⟩,
    login_auth_failure_uniform demoDB 3 4 demoHash "t1" "t2" "ghost" "pw" "alice" "wrongpw"
      demoAlice (by decide) (by decide) (by decide)⟩

/-- **C7**: when the requested username or email already exists, registration
persists nothing (the store is unchanged); the username check runs first, so a
username collision is reported even when the email also collides, and an email
collision is reported only when the username is free. -/
theorem register_duplicate_identity
    (db : DB) (now : Nat) (hashPassword : String → String)
    (username email password : String)
    (hdup : (db.users.find? (fun u => u.username == username)).isSome = true ∨
            (db.users.find? (fun u => u.email == email)).isSome = true) :
    (register_user db now hashPassword username email password).2 = db ∧
    ((db.users.find? (fun u => u.username == username)).isSome = true →
      (register_user db now hashPassword username email password).1
        = s!"❌ Username '{username}' already exists") ∧
    (db.users.find? (fun u => u.username == username) = none →
      (db.users.find? (fun u => u.email == email)).isSome = true →
      (register_user db now hashPassword username email password).1
        = s!"❌ Email '{email}' already registered") := by
  unfold register_user
  rcases hdup with h | h
  · rw [if_pos h]
    refine ⟨rfl, fun _ => rfl, fun hn _ => ?_⟩
    rw [hn] at h
    simp at h
  · by_cases hU : (db.users.find? (fun u => u.username == username)).isSome = true
    · rw [if_pos hU]
      refine ⟨rfl, fun _ => rfl, fun hn _ => ?_⟩
      rw [hn] at hU
      simp at hU
    · rw [if_neg hU, if_pos h]
      exact ⟨rfl, fun hc => absurd hc hU, fun _ _ => rfl⟩

theorem register_duplicate_identity_witness :
    ((demoDB.users.find? (fun u => u.username == "alice")).isSome = true ∨
      (demoDB.users.find? (fun u => u.email == "a@x.com")).isSome = true) ∧
    ((register_user demoDB 7 demoHash "alice" "a@x.com" "pw").2 = demoDB ∧
      ((demoDB.users.find? (fun u => u.username == "alice")).isSome = true →
        (register_user demoDB 7 demoHash "alice" "a@x.com" "pw").1
          = "❌ Username 'alice' already exists") ∧
      (demoDB.users.find? (fun u => u.username == "alice") = none →
        (demoDB.users.find? (fun u => u.email == "a@x.com")).isSome = true →
        (register_user demoDB 7 demoHash "alice" "a@x.com" "pw").1
          = "❌ Email 'a@x.com' already registered")) :=
  ⟨Or.inl (by decide),
    register_duplicate_identity demoDB 7 demoHash "alice" "a@x.com" "pw" (Or.inl (by decide))⟩

end ExpenseTracker

namespace ExpenseTracker

/-- **C2** (counterexample): the claim says `get_user_from_token` returns
distinct outcomes for an unrecognized token and for an expired one.  At these
concrete inputs, `"nosuch"` is held by no user while `"tokC"` is held by
`demoCarol` whose expiry 4 has passed at time 10, yet both calls return the
very same outcome `none` — the caller cannot tell the two failures apart. -/
theorem resolve_token_failures_identical_cex :
    demoDB.users.find? (fun x => x.session_token == some "nosuch") = none ∧
    (demoCarol ∈ demoDB.users ∧ demoCarol.session_token = some "tokC" ∧
      demoCarol.session_expires_at = some 4 ∧ 4 < 10) ∧
    (get_user_from_token demoDB 10 "nosuch" false).1 = none ∧
    (get_user_from_token demoDB 10 "tokC" false).1 = none ∧
    (get_user_from_token demoDB 10 "nosuch" false).1
      = (get_user_from_token demoDB 10 "tokC" false).1 := by decide

/-- **C2** (amended): `get_user_from_token` returns `None` both when no user
holds the token and when the holder's expiry has passed; the two failures are
not distinguishable from its result (the expired case differs only in its
side effect of clearing the stored session). -/
theorem resolve_token_failures_collapse
    (db : DB) (now : Nat) (tokI tokE : String) (u : User) (t : Nat)
    (hI : db.users.find? (fun x => x.session_token == some tokI) = none)
    (hE : db.users.find? (fun x => x.session_token == some tokE) = some u)
    (hexp : u.session_expires_at = some t) (ht : t < now) :
    (get_user_from_token db now tokI false).1 = none ∧
    (get_user_from_token db now tokE false).1 = none ∧
    (get_user_from_token db now tokI false).1 = (get_user_from_token db now tokE false).1 := by
  have hInone : (get_user_from_token db now tokI false).1 = none := by
    unfold get_user_from_token
    simp only [Bool.false_eq_true, if_false, hI]
  have hEnone : (get_user_from_token db now tokE false).1 = none := by
    unfold get_user_from_token
    simp only [Bool.false_eq_true, if_false, hE, hexp, if_pos ht]
  exact ⟨hInone, hEnone, by rw [hInone, hEnone]⟩

theorem resolve_token_failures_collapse_witness :
    (demoDB.users.find? (fun x => x.session_token == some "other") = none ∧
      demoDB.users.find? (fun x => x.session_token == some "tokC") = some demoCarol ∧
      demoCarol.session_expires_at = some 4 ∧ 4 < 12) ∧
    ((get_user_from_token demoDB 12 "other" false).1 = none ∧
      (get_user_from_token demoDB 12 "tokC" false).1 = none ∧
      (get_user_from_token demoDB 12 "other" false).1
        = (get_user_from_token demoDB 12 "tokC" false).1) :=
  ⟨⟨by decide, by decide, by decide, by decide⟩,
    resolve_token_failures_collapse demoDB 12 "other" "tokC" demoCarol 4
      (by decide) (by decide) (by decide) (by decide)⟩

/-- **C8** (counterexample): the claim says every persisted expense has a
non-negative amount.  With a live session, `add_expense` called with amount
`-1` persists an expense whose amount is `-1 < 0`: no operation validates the
sign. -/
theorem negative_amount_persisted_cex :
    (⟨12, 1, "snack", -1, "Food", "2024-01-05", 10⟩ : Expense)
        ∈ (add_expense demoDB 10 "2024-01-05" "tokA" "snack" (-1) "Food" false none).2.expenses ∧
    (⟨12, 1, "snack", -1, "Food", "2024-01-05", 10⟩ : Expense).amount < 0 := by decide

/-- **C8** (amended): `add_expense` and `modify_expense` store the
caller-supplied amount unchanged, with no sign validation: under a live
session a negative amount is persisted as is — `add_expense` inserts an
expense with negative amount, and `modify_expense` leaves every touched
record with that negative amount. -/
theorem negative_amount_persisted
    (db : DB) (now : Nat) (today tok description category d : String)
    (amount : Int) (A : User)
    (hres : (get_user_from_token db now tok false).1 = some A)
    (hneg : amount < 0) :
    (∃ e ∈ (add_expense db now today tok description amount category false none).2.expenses,
        e.amount < 0) ∧
    (∀ e ∈ (modify_expense db now tok d amount false).2.expenses,
        e.user_id = A.id → e.description = d → e.amount < 0) := by
  have hp := get_user_from_token_eq_pair hres
  constructor
  · refine ⟨⟨db.next_expense_id, A.id, description, amount, category, today, now⟩, ?_, hneg⟩
    unfold add_expense
    simp only [hp]
    simp
  · have hmod : (modify_expense db now tok d amount false).2.expenses
        = db.expenses.map (fun e =>
            if e.user_id == A.id && e.description == d then { e with amount := amount } else e) := by
      unfold modify_expense
      simp only [hp]
      split <;> rfl
    intro e he hid hd
    rw [hmod] at he
    rcases List.mem_map.mp he with ⟨x, hx, hxe⟩
    by_cases hm : (x.user_id == A.id && x.description == d) = true
    · rw [if_pos hm] at hxe
      rw [← hxe]
      exact hneg
    · rw [if_neg hm] at hxe
      subst hxe
      exact absurd (by simp [hid, hd]) hm

theorem negative_amount_persisted_witness :
    ((get_user_from_token demoDB 10 "tokA" false).1 = some demoAlice ∧ (-3 : Int) < 0) ∧
    ((∃ e ∈ (add_expense demoDB 10 "2024-01-05" "tokA" "lunch" (-3) "Food" false none).2.expenses,
        e.amount < 0) ∧
      (∀ e ∈ (modify_expense demoDB 10 "tokA" "coffee" (-3) false).2.expenses,
          e.user_id = demoAlice.id → e.description = "coffee" → e.amount < 0)) :=
  ⟨⟨by decide, by decide⟩,
    negative_amount_persisted demoDB 10 "2024-01-05" "tokA" "lunch" "Food" "coffee" (-3)
      demoAlice (by decide) (by decide)⟩

/-- **C9** (counterexample): the claim says a storage-layer fault yields an
infrastructure-failure outcome distinct from every domain error, never the
same as an invalid token.  At these concrete inputs a fault during the token
lookup of a *valid* token ("tokA") produces exactly the same outcome — message
and state — as presenting an unrecognized token ("nosuch"): the fault is
caught inside `get_user_from_token` (main.py line 292-293) and surfaces as
the invalid-session rejection. -/
theorem storage_fault_masquerades_cex :
    add_expense demoDB 10 "2024-01-05" "tokA" "coffee" 5 "Food" true none
      = ("❌ Invalid session token. Please login first.", demoDB) ∧
    add_expense demoDB 10 "2024-01-05" "nosuch" "coffee" 5 "Food" false none
      = ("❌ Invalid session token. Please login first.", demoDB) ∧
    add_expense demoDB 10 "2024-01-05" "tokA" "coffee" 5 "Food" true none
      = add_expense demoDB 10 "2024-01-05" "nosuch" "coffee" 5 "Food" false none := by decide

/-- **C9** (amended): a storage fault during the token lookup inside
`get_user_from_token` is caught there and reported by the data operation as
the same `Unauthenticated` outcome as an unrecognized token, with identical
message and state; only a fault in the operation's own data access (here the
insert of `add_expense`) surfaces as a distinct error message. -/
theorem storage_fault_reported_as_unauthenticated
    (db : DB) (now : Nat) (today tokI tokV description category m : String)
    (amount : Int) (A : User)
    (hI : db.users.find? (fun x => x.session_token == some tokI) = none)
    (hV : (get_user_from_token db now tokV false).1 = some A) :
    (∀ tok, add_expense db now today tok description amount category true none
        = (invalidSessionMsg, db)) ∧
    add_expense db now today tokI description amount category false none
      = (invalidSessionMsg, db) ∧
    add_expense db now today tokV description amount category false (some m)
      = (s!"❌ Error adding expense: {m}", db) := by
  refine ⟨fun tok => ?_, ?_, ?_⟩
  · unfold add_expense get_user_from_token
    simp
  · unfold add_expense get_user_from_token
    simp only [Bool.false_eq_true, if_false, hI]
  · have hp := get_user_from_token_eq_pair hV
    unfold add_expense
    simp only [hp]

theorem storage_fault_reported_as_unauthenticated_witness :
    (demoDB.users.find? (fun x => x.session_token == some "nosuch") = none ∧
      (get_user_from_token demoDB 10 "tokA" false).1 = some demoAlice) ∧
    ((∀ tok, add_expense demoDB 10 "2024-01-05" tok "coffee" 5 "Food" true none
        = (invalidSessionMsg, demoDB)) ∧
      add_expense demoDB 10 "2024-01-05" "nosuch" "coffee" 5 "Food" false none
        = (invalidSessionMsg, demoDB) ∧
      add_expense demoDB 10 "2024-01-05" "tokA" "coffee" 5 "Food" false (some "boom")
        = ("❌ Error adding expense: boom", demoDB)) :=
  ⟨⟨by decide, by decide⟩,
    storage_fault_reported_as_unauthenticated demoDB 10 "2024-01-05" "nosuch" "tokA"
      "coffee" "Food" "boom" 5 demoAlice (by decide) (by decide)⟩

end ExpenseTracker

namespace ExpenseTracker

theorem get_user_from_token_of_find?_none (db : DB) (now : Nat) (tok : String)
    (h : db.users.find? (fun x => x.session_token == some tok) = none) :
    get_user_from_token db now tok false = (none, db) := by
  unfold get_user_from_token
  simp only [Bool.false_eq_true, if_false, h]

theorem get_user_from_token_of_live (db : DB) (now : Nat) (tok : String) (v : User) (t : Nat)
    (hfind : db.users.find? (fun x => x.session_token == some tok) = some v)
    (hexp : v.session_expires_at = some t) (ht : ¬ t < now) :
    get_user_from_token db now tok false = (some v, db) := by
  unfold get_user_from_token
  simp only [Bool.false_eq_true, if_false, hfind, hexp, if_neg ht]

/-- **C3**: validating a token whose holder's expiry is strictly in the past
reports the session as not valid and clears both session fields on that user;
the purge is idempotent — an immediately repeated validation of the same
token finds no holder and again returns the invalid result on an unchanged
store — while validating a not-yet-expired token (`tok2`, held by `v`)
returns the owning user.  The uniqueness hypotheses say the store is
well-formed: user ids are pairwise distinct and `u` is the only holder of
`tok`. -/
theorem expired_token_purged_idempotently
    (db : DB) (now : Nat) (tok tok2 : String) (u v : User) (t t2 : Nat)
    (hids : db.users.Pairwise (fun a b => a.id ≠ b.id))
    (hfind : db.users.find? (fun x => x.session_token == some tok) = some u)
    (hexp : u.session_expires_at = some t) (ht : t < now)
    (huniq : ∀ w ∈ db.users, w.session_token = some tok → w = u)
    (hfind2 : db.users.find? (fun x => x.session_token == some tok2) = some v)
    (hexp2 : v.session_expires_at = some t2) (ht2 : ¬ t2 < now) :
    (get_user_from_token db now tok false).1 = none ∧
    (∀ w ∈ (get_user_from_token db now tok false).2.users,
        w.id = u.id → w.session_token = none ∧ w.session_expires_at = none) ∧
    get_user_from_token (get_user_from_token db now tok false).2 now tok false
      = (none, (get_user_from_token db now tok false).2) ∧
    get_user_from_token db now tok2 false = (some v, db) := by
  have humem : u ∈ db.users := List.mem_of_find?_eq_some hfind
  have hmap := updateFirst_eq_map_of_unique
    (fun w => { w with session_token := none, session_expires_at := none }) db.users u hids humem
  have hrun : get_user_from_token db now tok false
      = (none, { db with users := db.users.map (fun x =>
          if x.id == u.id then { x with session_token := none, session_expires_at := none }
          else x) }) := by
    unfold get_user_from_token
    simp only [Bool.false_eq_true, if_false, hfind, hexp, if_pos ht, hmap]
  have hclear : ∀ w ∈ (get_user_from_token db now tok false).2.users,
      w.session_token ≠ some tok := by
    rw [hrun]
    intro w hw
    rcases List.mem_map.mp hw with ⟨x, hx, hxe⟩
    by_cases hm : (x.id == u.id) = true
    · rw [if_pos hm] at hxe
      rw [← hxe]
      simp
    · rw [if_neg hm] at hxe
      subst hxe
      intro hwt
      have hxu : x = u := huniq x hx hwt
      exact hm (by simp [hxu])
  refine ⟨by rw [hrun], ?_, ?_, ?_⟩
  · rw [hrun]
    intro w hw hid
    rcases List.mem_map.mp hw with ⟨x, hx, hxe⟩
    by_cases hm : (x.id == u.id) = true
    · rw [if_pos hm] at hxe
      rw [← hxe]
      exact ⟨rfl, rfl⟩
    · rw [if_neg hm] at hxe
      subst hxe
      exact absurd (by simp [hid]) hm
  · have hnone : ((get_user_from_token db now tok false).2).users.find?
        (fun x => x.session_token == some tok) = none := by
      rw [List.find?_eq_none]
      intro x hx
      simp only [beq_iff_eq]
      exact hclear x hx
    exact get_user_from_token_of_find?_none _ now tok hnone
  · exact get_user_from_token_of_live db now tok2 v t2 hfind2 hexp2 ht2

theorem expired_token_purged_idempotently_witness :
    (demoDB.users.Pairwise (fun a b => a.id ≠ b.id) ∧
      demoDB.users.find? (fun x => x.session_token == some "tokC") = some demoCarol ∧
      demoCarol.session_expires_at = some 4 ∧ 4 < 10 ∧
      (∀ w ∈ demoDB.users, w.session_token = some "tokC" → w = demoCarol) ∧
      demoDB.users.find? (fun x => x.session_token == some "tokA") = some demoAlice ∧
      demoAlice.session_expires_at = some 30 ∧ ¬ 30 < 10) ∧
    ((get_user_from_token demoDB 10 "tokC" false).1 = none ∧
      (∀ w ∈ (get_user_from_token demoDB 10 "tokC" false).2.users,
          w.id = demoCarol.id → w.session_token = none ∧ w.session_expires_at = none) ∧
      get_user_from_token (get_user_from_token demoDB 10 "tokC" false).2 10 "tokC" false
        = (none, (get_user_from_token demoDB 10 "tokC" false).2) ∧
      get_user_from_token demoDB 10 "tokA" false = (some demoAlice, demoDB)) :=
  ⟨⟨by decide, by decide, by decide, by decide, by decide, by decide, by decide, by decide⟩,
    expired_token_purged_idempotently demoDB 10 "tokC" "tokA" demoCarol demoAlice 4 30
      (by decide) (by decide) (by decide) (by decide) (by decide) (by decide) (by decide)
      (by decide)⟩

end ExpenseTracker

namespace ExpenseTracker

/-- **C10**: under a live session of user `A`, `modify_expense` sets the
amount of *every* expense owned by `A` whose description equals `d` exactly
(the store becomes the pointwise update of all matching records), and
`delete_expense` removes every such expense; each reports the count of
affected records — for updates, the records whose stored amount actually
changed, as pymongo's `modified_count` counts them — and reports the
no-match failure message exactly when that count is zero. -/
theorem modify_delete_affect_all_matching
    (db : DB) (now : Nat) (tok d : String) (amt : Int) (A : User)
    (hres : (get_user_from_token db now tok false).1 = some A) :
    ((modify_expense db now tok d amt false).2.expenses
        = db.expenses.map (fun e =>
            if e.user_id == A.id && e.description == d then { e with amount := amt } else e)) ∧
    (∀ e ∈ (modify_expense db now tok d amt false).2.expenses,
        e.user_id = A.id → e.description = d → e.amount = amt) ∧
    ((modify_expense db now tok d amt false).1
        = (let n := (db.expenses.filter (fun e =>
              (e.user_id == A.id && e.description == d) && e.amount != amt)).length
           if n > 0 then s!"✓ Modified {n} expense(s) successfully"
           else s!"❌ No expenses found with description '{d}'")) ∧
    ((delete_expense db now tok d false).2.expenses
        = db.expenses.filter (fun e => !(e.user_id == A.id && e.description == d))) ∧
    (∀ e ∈ db.expenses, e.user_id = A.id → e.description = d →
        e ∉ (delete_expense db now tok d false).2.expenses) ∧
    ((delete_expense db now tok d false).1
        = (let n := (db.expenses.filter (fun e =>
              e.user_id == A.id && e.description == d)).length
           if n > 0 then s!"✓ Deleted {n} expense(s) successfully"
           else s!"❌ No expenses found with description '{d}'")) := by
  have hp := get_user_from_token_eq_pair hres
  have hmod : (modify_expense db now tok d amt false).2.expenses
      = db.expenses.map (fun e =>
          if e.user_id == A.id && e.description == d then { e with amount := amt } else e) := by
    unfold modify_expense
    simp only [hp]
    split <;> rfl
  have hdel : (delete_expense db now tok d false).2.expenses
      = db.expenses.filter (fun e => !(e.user_id == A.id && e.description == d)) := by
    unfold delete_expense
    simp only [hp]
    split <;> rfl
  refine ⟨hmod, ?_, ?_, hdel, ?_, ?_⟩
  · intro e he hid hd
    rw [hmod] at he
    rcases List.mem_map.mp he with ⟨x, hx, hxe⟩
    by_cases hm : (x.user_id == A.id && x.description == d) = true
    · rw [if_pos hm] at hxe
      rw [← hxe]
    · rw [if_neg hm] at hxe
      subst hxe
      exact absurd (by simp [hid, hd]) hm
  · unfold modify_expense
    simp only [hp]
    split <;> rfl
  · intro e he hid hd hmem
    rw [hdel] at hmem
    have := (List.mem_filter.mp hmem).2
    simp [hid, hd] at this
  · unfold delete_expense
    simp only [hp]
    split <;> rfl

theorem modify_delete_affect_all_matching_witness :
    ((get_user_from_token demoDB 10 "tokA" false).1 = some demoAlice) ∧
    (((modify_expense demoDB 10 "tokA" "coffee" 9 false).2.expenses
        = demoDB.expenses.map (fun e =>
            if e.user_id == demoAlice.id && e.description == "coffee" then { e with amount := 9 }
            else e)) ∧
      (∀ e ∈ (modify_expense demoDB 10 "tokA" "coffee" 9 false).2.expenses,
          e.user_id = demoAlice.id → e.description = "coffee" → e.amount = 9) ∧
      ((modify_expense demoDB 10 "tokA" "coffee" 9 false).1
          = (let n := (demoDB.expenses.filter (fun e =>
               (e.user_id == demoAlice.id && e.description == "coffee") && e.amount != 9)).length
             if n > 0 then s!"✓ Modified {n} expense(s) successfully"
             else "❌ No expenses found with description 'coffee'")) ∧
      ((delete_expense demoDB 10 "tokA" "coffee" false).2.expenses
          = demoDB.expenses.filter (fun e =>
              !(e.user_id == demoAlice.id && e.description == "coffee"))) ∧
      (∀ e ∈ demoDB.expenses, e.user_id = demoAlice.id → e.description = "coffee" →
          e ∉ (delete_expense demoDB 10 "tokA" "coffee" false).2.expenses) ∧
      ((delete_expense demoDB 10 "tokA" "coffee" false).1
          = (let n := (demoDB.expenses.filter (fun e =>
               e.user_id == demoAlice.id && e.description == "coffee")).length
             if n > 0 then s!"✓ Deleted {n} expense(s) successfully"
             else "❌ No expenses found with description 'coffee'"))) :=
  ⟨by decide,
    modify_delete_affect_all_matching demoDB 10 "tokA" "coffee" 9 demoAlice (by decide)⟩

end ExpenseTracker

namespace ExpenseTracker

/-- The owner-scoping contract of the eight data operations for a session
resolved to user `A`: the created expense carries `A`'s id regardless of the
caller-supplied arguments; every read operation filters with a predicate that
only ever selects expenses whose `user_id` is `A`'s id and leaves the store
unchanged; delete and modify touch exactly the expenses whose `user_id` is
`A`'s id, and every expense of any other owner survives unchanged. -/
def ownerScoped (db : DB) (now : Nat) (tok : String) (A : User) : Prop :=
  (∀ today description category (amount : Int),
      (add_expense db now today tok description amount category false none).2.expenses
        = db.expenses ++
            [⟨db.next_expense_id, A.id, description, amount, category, today, now⟩]) ∧
  (∀ e, list_all_matches A.id e = true → e.user_id = A.id) ∧
  ((list_all_expense db now tok false).2 = db) ∧
  (∀ term e, search_matches A.id term e = true → e.user_id = A.id) ∧
  (∀ term, (search_expense db now tok term false).2 = db) ∧
  (∀ s en c e, range_matches A.id s en c e = true → e.user_id = A.id) ∧
  (∀ s en c, (get_expense_details_by_date_and_category db now tok s en c false).2 = db) ∧
  (∀ s en c, (get_expense_summary_by_date_and_category db now tok s en c false).2 = db) ∧
  (∀ eid e, details_matches A.id eid e = true → e.user_id = A.id) ∧
  (∀ eid, (get_expense_details db now tok eid false).2 = db) ∧
  (∀ d, (delete_expense db now tok d false).2.expenses
      = db.expenses.filter (fun e => !(e.user_id == A.id && e.description == d))) ∧
  (∀ d e, e ∈ db.expenses → e.user_id ≠ A.id →
      e ∈ (delete_expense db now tok d false).2.expenses) ∧
  (∀ d amt, (modify_expense db now tok d amt false).2.expenses
      = db.expenses.map (fun e =>
          if e.user_id == A.id && e.description == d then { e with amount := amt } else e)) ∧
  (∀ d amt e, e ∈ db.expenses → e.user_id ≠ A.id →
      e ∈ (modify_expense db now tok d amt false).2.expenses)

/-- **C1**: every data operation invoked with a token that resolves to user
`A` is owner-scoped (see `ownerScoped`): reads only ever select `A`'s
expenses, the created expense is owned by `A` whatever the caller supplies,
and no expense owned by another user is returned, matched or mutated. -/
theorem data_operations_owner_scoped
    (db : DB) (now : Nat) (tok : String) (A : User)
    (hres : (get_user_from_token db now tok false).1 = some A) :
    ownerScoped db now tok A := by
  have hp := get_user_from_token_eq_pair hres
  have hdel : ∀ d, (delete_expense db now tok d false).2.expenses
      = db.expenses.filter (fun e => !(e.user_id == A.id && e.description == d)) := by
    intro d
    unfold delete_expense
    simp only [hp]
    split <;> rfl
  have hmod : ∀ d amt, (modify_expense db now tok d amt false).2.expenses
      = db.expenses.map (fun e =>
          if e.user_id == A.id && e.description == d then { e with amount := amt } else e) := by
    intro d amt
    unfold modify_expense
    simp only [hp]
    split <;> rfl
  refine ⟨?_, ?_, ?_, ?_, ?_, ?_, ?_, ?_, ?_, ?_, hdel, ?_, hmod, ?_⟩
  · intro today description category amount
    unfold add_expense
    simp only [hp]
  · intro e h
    simpa [list_all_matches] using h
  · unfold list_all_expense
    simp only [hp]
    split <;> rfl
  · intro term e h
    rw [search_matches, Bool.and_eq_true] at h
    exact beq_iff_eq.mp h.1
  · intro term
    unfold search_expense
    simp only [hp]
    split <;> rfl
  · intro s en c e h
    rw [range_matches, Bool.and_eq_true, Bool.and_eq_true, Bool.and_eq_true] at h
    exact beq_iff_eq.mp h.1.1.1
  · intro s en c
    unfold get_expense_details_by_date_and_category
    simp only [hp]
    split <;> rfl
  · intro s en c
    unfold get_expense_summary_by_date_and_category
    simp only [hp]
    split <;> rfl
  · intro eid e h
    rw [details_matches, Bool.and_eq_true] at h
    exact beq_iff_eq.mp h.2
  · intro eid
    unfold get_expense_details
    simp only [hp]
    split <;> rfl
  · intro d e he hne
    rw [hdel d]
    refine List.mem_filter.mpr ⟨he, ?_⟩
    simp [beq_eq_false_iff_ne.mpr hne]
  · intro d amt e he hne
    rw [hmod d amt]
    refine List.mem_map.mpr ⟨e, he, ?_⟩
    rw [if_neg]
    simp [beq_eq_false_iff_ne.mpr hne]

theorem data_operations_owner_scoped_witness :
    ((get_user_from_token demoDB 10 "tokA" false).1 = some demoAlice) ∧
    ownerScoped demoDB 10 "tokA" demoAlice :=
  ⟨by decide, data_operations_owner_scoped demoDB 10 "tokA" demoAlice (by decide)⟩

end ExpenseTracker

namespace ExpenseTracker

/-- **C5**: after a second successful login of the same user, the token issued
by the first login is held by no user record, so validating it returns the
invalid result on an unchanged store — each login overwrites the stored
`session_token` / `session_expires_at`, leaving at most one active session
per user.  Hypotheses: the store has pairwise-distinct user ids, the
identifier resolves to `u` with the right password, the first token is fresh
(held by nobody before the logins) and the second generated token differs
from the first. -/
theorem second_login_invalidates_first_token
    (db : DB) (now1 now2 now3 : Nat) (hashPassword : String → String)
    (identifier password tok1 tok2 : String) (u : User)
    (hids : db.users.Pairwise (fun a b => a.id ≠ b.id))
    (hu : db.users.find? (fun x => x.username == identifier || x.email == identifier) = some u)
    (hpw : u.password_hash = hashPassword password)
    (hne : tok1 ≠ tok2)
    (hfresh : ∀ w ∈ db.users, w.session_token ≠ some tok1) :
    (∀ w ∈ ((login_user (login_user db now1 hashPassword tok1 identifier password).2
                now2 hashPassword tok2 identifier password).2).users,
        w.session_token ≠ some tok1) ∧
    get_user_from_token
        ((login_user (login_user db now1 hashPassword tok1 identifier password).2
            now2 hashPassword tok2 identifier password).2) now3 tok1 false
      = (none,
          (login_user (login_user db now1 hashPassword tok1 identifier password).2
              now2 hashPassword tok2 identifier password).2) := by
  have humem : u ∈ db.users := List.mem_of_find?_eq_some hu
  have hbne : (u.password_hash != hashPassword password) = false := by
    rw [hpw]
    exact bne_self_eq_false (hashPassword password)
  set f1 : User → User := fun w =>
    { w with session_token := some tok1,
             session_expires_at := some (now1 + SESSION_TIMEOUT_HOURS),
             last_login := some now1 } with hf1
  set f2 : User → User := fun w =>
    { w with session_token := some tok2,
             session_expires_at := some (now2 + SESSION_TIMEOUT_HOURS),
             last_login := some now2 } with hf2
  set g1 : User → User := fun x => if x.id == u.id then f1 x else x with hg1
  have hmap1 : updateFirst (fun x => x.id == u.id) f1 db.users = db.users.map g1 :=
    updateFirst_eq_map_of_unique f1 db.users u hids humem
  have hdb1 : (login_user db now1 hashPassword tok1 identifier password).2.users
      = db.users.map g1 := by
    unfold login_user
    simp only [hu, hbne, Bool.false_eq_true, if_false, hf1, hg1, hmap1]
  have hg1id : ∀ x, (g1 x).id = x.id := by
    intro x
    simp only [hg1, hf1]
    by_cases hm : (x.id == u.id) = true
    · rw [if_pos hm]
    · rw [if_neg hm]
  have hg1pres : ∀ x, ((g1 x).username == identifier || (g1 x).email == identifier)
      = (x.username == identifier || x.email == identifier) := by
    intro x
    simp only [hg1, hf1]
    by_cases hm : (x.id == u.id) = true
    · rw [if_pos hm]
    · rw [if_neg hm]
  have hg1u : g1 u = f1 u := by
    simp only [hg1]
    exact if_pos (by simp)
  -- the second login finds the updated record of the same user
  have hfind1 : ((login_user db now1 hashPassword tok1 identifier password).2).users.find?
      (fun x => x.username == identifier || x.email == identifier) = some (g1 u) := by
    rw [hdb1, find?_map_pres _ g1 db.users hg1pres, hu, Option.map_some']
  have hbne2 : ((g1 u).password_hash != hashPassword password) = false := by
    rw [hg1u, hf1]
    simp only []
    rw [hpw]
    exact bne_self_eq_false (hashPassword password)
  have hids1 : ((login_user db now1 hashPassword tok1 identifier password).2).users.Pairwise
      (fun a b => a.id ≠ b.id) := by
    rw [hdb1]
    exact pairwise_ids_map g1 hg1id db.users hids
  have humem1 : g1 u ∈ ((login_user db now1 hashPassword tok1 identifier password).2).users := by
    rw [hdb1]
    exact List.mem_map_of_mem g1 humem
  set g2 : User → User := fun x => if x.id == (g1 u).id then f2 x else x with hg2
  have hmap2 : updateFirst (fun x => x.id == (g1 u).id) f2
      ((login_user db now1 hashPassword tok1 identifier password).2).users
      = ((login_user db now1 hashPassword tok1 identifier password).2).users.map g2 :=
    updateFirst_eq_map_of_unique f2 _ (g1 u) hids1 humem1
  have hdb2 : ((login_user (login_user db now1 hashPassword tok1 identifier password).2
      now2 hashPassword tok2 identifier password).2).users
      = ((login_user db now1 hashPassword tok1 identifier password).2).users.map g2 := by
    conv_lhs => rw [login_user]
    simp only [hfind1, hbne2, Bool.false_eq_true, if_false, hf2, hg2, hmap2]
  have hguid : (g1 u).id = u.id := hg1id u
  have hnotok1 : ∀ w ∈ ((login_user (login_user db now1 hashPassword tok1 identifier password).2
      now2 hashPassword tok2 identifier password).2).users,
      w.session_token ≠ some tok1 := by
    intro w hw
    rw [hdb2, hdb1] at hw
    rcases List.mem_map.mp hw with ⟨y, hy, hye⟩
    rcases List.mem_map.mp hy with ⟨x, hx, hxy⟩
    by_cases hm : (x.id == u.id) = true
    · -- the user's own record: it now carries tok2 ≠ tok1
      have he1 : g1 x = f1 x := by
        simp only [hg1]
        exact if_pos hm
      have hyid : y.id = u.id := by
        rw [← hxy, hg1id x]
        exact beq_iff_eq.mp hm
      have he2 : g2 y = f2 y := by
        simp only [hg2]
        exact if_pos (by simp [hyid, hguid])
      rw [he2] at hye
      rw [← hye, hf2]
      intro hcontra
      exact hne (by simpa using hcontra.symm)
    · -- another user's record: untouched by both logins
      have he1 : g1 x = x := by
        simp only [hg1]
        exact if_neg hm
      have hyid : y = x := by rw [← hxy, he1]
      subst hyid
      have he2 : g2 y = y := by
        simp only [hg2]
        refine if_neg ?_
        rw [hguid]
        exact hm
      rw [he2] at hye
      subst hye
      exact hfresh y hx
  refine ⟨hnotok1, ?_⟩
  apply get_user_from_token_of_find?_none
  rw [List.find?_eq_none]
  intro x hx
  simp only [beq_iff_eq]
  exact hnotok1 x hx

theorem second_login_invalidates_first_token_witness :
    (demoDB.users.Pairwise (fun a b => a.id ≠ b.id) ∧
      demoDB.users.find? (fun x => x.username == "alice" || x.email == "alice") = some demoAlice ∧
      demoAlice.password_hash = demoHash "pw1" ∧
      ("s1" : String) ≠ "s2" ∧
      (∀ w ∈ demoDB.users, w.session_token ≠ some "s1")) ∧
    ((∀ w ∈ ((login_user (login_user demoDB 3 demoHash "s1" "alice" "pw1").2
                4 demoHash "s2" "alice" "pw1").2).users,
        w.session_token ≠ some "s1") ∧
      get_user_from_token
          ((login_user (login_user demoDB 3 demoHash "s1" "alice" "pw1").2
              4 demoHash "s2" "alice" "pw1").2) 5 "s1" false
        = (none,
            (login_user (login_user demoDB 3 demoHash "s1" "alice" "pw1").2
                4 demoHash "s2" "alice" "pw1").2)) :=
  ⟨⟨by decide, by decide, by decide, by decide, by decide⟩,
    second_login_invalidates_first_token demoDB 3 4 5 demoHash "alice" "pw1" "s1" "s2"
      demoAlice (by decide) (by decide) (by decide) (by decide) (by decide)⟩

end ExpenseTracker
